import Mathlib

set_option maxHeartbeats 1000000

-- Verification of the per-user download-session workflow of the YouTube
-- downloader bot (src/youtube_bot.py together with src/config.py).
-- Strings are modelled as lists of characters; the external chat transport
-- and media resolver appear only through the data they hand to the workflow
-- (HTTP status, response body, send outcome).

def strOf (s : String) : List Char := s.toList

-- ---------------------------------------------------------------------------
-- Link classifier (extract_video_id, is_valid_youtube_url).
-- Each regex in the source has the shape
--   literal-alternation followed by the capture group ([^&\n?#]+),
-- compiled here as: a list of alternative literal strings plus a maximal
-- nonempty run of characters outside {&, newline, ?, #}.  re.search scans
-- positions left to right; at a position the alternatives are tried in order.
-- ---------------------------------------------------------------------------

def capChar (c : Char) : Bool :=
  !(c = '&' || c = '\n' || c = '?' || c = '#')

-- The alphabet of canonical YouTube video identifiers (letters, digits,
-- dash, underscore); used as the side condition of the round-trip claims.
def idChar (c : Char) : Bool :=
  c.isAlphanum || c = '-' || c = '_'

def dropLit : List Char → List Char → Option (List Char)
  | [], s => some s
  | _ :: _, [] => none
  | a :: as, b :: bs => if a = b then dropLit as bs else none

def matchCapAt (lit s : List Char) : Option (List Char) :=
  match dropLit lit s with
  | none => none
  | some rest =>
    match rest.takeWhile capChar with
    | [] => none
    | c :: cs => some (c :: cs)

def matchAltsAt : List (List Char) → List Char → Option (List Char)
  | [], _ => none
  | lit :: lits, s =>
    match matchCapAt lit s with
    | some g => some g
    | none => matchAltsAt lits s

def reSearch (lits : List (List Char)) : List Char → Option (List Char)
  | [] => none
  | c :: rest =>
    match matchAltsAt lits (c :: rest) with
    | some g => some g
    | none => reSearch lits rest

-- The three patterns of extract_video_id, in source order.
def pat1 : List (List Char) :=
  [strOf "youtube.com/watch?v=", strOf "youtu.be/", strOf "youtube.com/embed/"]

def pat2 : List (List Char) := [strOf "youtube.com/shorts/"]

def pat3 : List (List Char) := [strOf "youtube.com/v/"]

def extract_video_id (url : List Char) : Option (List Char) :=
  match reSearch pat1 url with
  | some g => some g
  | none =>
    match reSearch pat2 url with
    | some g => some g
    | none => reSearch pat3 url

def startsWithL : List Char → List Char → Bool
  | [], _ => true
  | _ :: _, [] => false
  | a :: as, b :: bs => a = b && startsWithL as bs

-- Python substring containment (the `domain in url` test).
def containsSub (pat : List Char) : List Char → Bool
  | [] => pat.isEmpty
  | c :: s => startsWithL pat (c :: s) || containsSub pat s

namespace Config

def MAX_FILE_SIZE : Nat := 2000000000

-- (key, label) rows of Config.QUALITY_OPTIONS, in source order.
def QUALITY_OPTIONS : List (List Char × List Char) :=
  [(strOf "best", strOf "🎬 Best Quality"),
   (strOf "720p", strOf "📺 720p HD"),
   (strOf "480p", strOf "📱 480p Medium"),
   (strOf "360p", strOf "⚡ 360p Fast"),
   (strOf "audio", strOf "🎵 Audio Only (MP3)")]

def SUPPORTED_DOMAINS : List (List Char) :=
  [strOf "youtube.com", strOf "youtu.be",
   strOf "youtube-nocookie.com", strOf "m.youtube.com"]

end Config

def is_valid_youtube_url (url : List Char) : Bool :=
  Config.SUPPORTED_DOMAINS.any (fun d => containsSub d url)
    && (extract_video_id url).isSome

-- ---------------------------------------------------------------------------
-- Selection tokens: encoding (line 336) and the split-based parse
-- (lines 441 to 447).
-- ---------------------------------------------------------------------------

-- f-string "download_{quality_key}_{video_id}"
def dlToken (qualityKey vid : List Char) : List Char :=
  strOf "download_" ++ qualityKey ++ strOf "_" ++ vid

-- Python str.split on a single character: "".split gives [""],
-- and empty fields are kept.
def splitU : List Char → List (List Char)
  | [] => [[]]
  | c :: rest =>
    if c = '_' then [] :: splitU rest
    else
      match splitU rest with
      | [] => [[c]]
      | p :: ps => (c :: p) :: ps

-- parts[0], parts[1], parts[2] when len(parts) >= 3.
def parseCbFields (cb : List Char) : Option (List Char × List Char × List Char) :=
  match splitU cb with
  | p0 :: p1 :: p2 :: _ => some (p0, p1, p2)
  | _ => none

-- QUALITY_OPTIONS.get(quality, {}).get('label', quality.upper())
def qualityLabel (q : List Char) : List Char :=
  match Config.QUALITY_OPTIONS.find? (fun kv => kv.1 == q) with
  | some kv => kv.2
  | none => q.map Char.toUpper

-- ---------------------------------------------------------------------------
-- Data model of a session and of the messages the workflow can surface.
-- ---------------------------------------------------------------------------

structure Video where
  url : List Char
  title : List Char
  vid : List Char
deriving DecidableEq

inductive Msg
  | videoFound (title vid : List Char)
  | sendLinkHint
  | invalidFormat
  | stalePrompt
  | downloading (title label : List Char)
  | progress (pct : Nat)
  | tooLarge (actualBytes maxBytes : Nat)
  | successCaption (title label : List Char) (sizeBytes : Nat)
  | successNote
  | downloadFailed (status : Nat)
  | downloadError
deriving DecidableEq

-- The two numeric quantities shown by a message (used to state what the
-- too-large report does and does not tell the user).
def reportedNumbers : Msg → List Nat
  | Msg.tooLarge a m => [a, m]
  | _ => []

-- ---------------------------------------------------------------------------
-- Download execution and delivery (lines 478 to 568).
-- ---------------------------------------------------------------------------

-- Outcome of requests.get(download_url, ...): either a raised
-- RequestException/timeout, or a response with a status code and, when the
-- body is saved, an on-disk size.
inductive DlFetch
  | reqError
  | resp (status : Nat) (fileSize : Nat)
deriving DecidableEq

-- What the transport does when send_video is called.
inductive SendOutcome
  | ok
  | transportError
  | cancelled
deriving DecidableEq

-- The outbound media call vocabulary of the chat transport.
inductive SendAction
  | sendVideo (filename : List Char) (streaming : Bool)
  | sendAudio (filename : List Char)
deriving DecidableEq

def isAudioSend : Option SendAction → Bool
  | some (SendAction.sendAudio _) => true
  | _ => false

-- Python str.rstrip / str.strip restricted to whitespace.
def rstripWS (s : List Char) : List Char :=
  (s.reverse.dropWhile Char.isWhitespace).reverse

def stripWS (s : List Char) : List Char :=
  rstripWS (s.dropWhile Char.isWhitespace)

-- c.isalnum() or c in (' ', '-', '_')
def safeChar (c : Char) : Bool :=
  c.isAlphanum || c = ' ' || c = '-' || c = '_'

-- safe_title = filter, then rstrip; filename = f"{safe_title[:50]}_{quality}.mp4"
def mkFilename (title quality : List Char) : List Char :=
  ((rstripWS (title.filter safeChar)).take 50) ++ strOf "_" ++ quality ++ strOf ".mp4"

-- f"temp_{user_id}_{video_id}.mp4"; user ids render as decimal digits.
def tempPath (uid vid : List Char) : List Char :=
  strOf "temp_" ++ uid ++ strOf "_" ++ vid ++ strOf ".mp4"

structure DJob where
  uid : List Char
  vid : List Char
  quality : List Char
deriving DecidableEq

def jobTempPath (j : DJob) : List Char :=
  tempPath j.uid j.vid

-- The three cosmetic progress edits (25, 50, 75) sent before requests.get.
def progressMsgs : List Msg :=
  [Msg.progress 25, Msg.progress 50, Msg.progress 75]

structure DeliveryResult where
  tempCreated : Bool
  tempRemoved : Bool
  send : Option SendAction
  deliveredOk : Bool
  msgs : List Msg
deriving DecidableEq

-- Lines 478 to 568: everything after the staleness check.  The temp file is
-- created only in the status==200 branch; it is removed in the too-large
-- branch and after a successful send; an exception raised by send_video is
-- caught by the handler at line 560, which edits a message and does not
-- remove the file; a cancellation propagates out of the except clause,
-- removing nothing and editing nothing.
def completeJob (dl : DlFetch) (send : SendOutcome) (quality title : List Char)
    (maxB : Nat) : DeliveryResult :=
  match dl with
  | DlFetch.reqError =>
    ⟨false, false, none, false, progressMsgs ++ [Msg.downloadError]⟩
  | DlFetch.resp status fileSize =>
    if status = 200 then
      if fileSize > maxB then
        ⟨true, true, none, false, progressMsgs ++ [Msg.tooLarge fileSize maxB]⟩
      else
        match send with
        | SendOutcome.ok =>
          ⟨true, true, some (SendAction.sendVideo (mkFilename title quality) true), true,
            progressMsgs ++ [Msg.successCaption title (qualityLabel quality) fileSize,
                             Msg.successNote]⟩
        | SendOutcome.transportError =>
          ⟨true, false, some (SendAction.sendVideo (mkFilename title quality) true), false,
            progressMsgs ++ [Msg.downloadError]⟩
        | SendOutcome.cancelled =>
          ⟨true, false, some (SendAction.sendVideo (mkFilename title quality) true), false,
            progressMsgs⟩
    else
      ⟨false, false, none, false, progressMsgs ++ [Msg.downloadFailed status]⟩

-- ---------------------------------------------------------------------------
-- Per-identity session state machine.  One logical task runs
-- process_download_request; its single suspension-sensitive boundary is
-- between the staleness check (line 453) and the download/delivery body,
-- during which other events for the same identity may interleave.
-- ---------------------------------------------------------------------------

structure SessState where
  current : Option Video
  pending : Option (List Char × Video)
  delivered : List (List Char × List Char)
  msgs : List Msg
deriving DecidableEq

def initSess : SessState := ⟨none, none, [], []⟩

-- handle_message plus the storing part of process_video_request
-- (lines 258 to 330), with a successful metadata fetch supplying the title.
def process_video_request (url title : List Char) (st : SessState) : SessState :=
  if is_valid_youtube_url url then
    match extract_video_id url with
    | some vid =>
      { st with current := some ⟨url, title, vid⟩,
                msgs := st.msgs ++ [Msg.videoFound title vid] }
    | none => st
  else
    { st with msgs := st.msgs ++ [Msg.sendLinkHint] }

-- process_download_request, lines 438 to 476: parse the token, check the
-- stored context, and on success capture (quality, context) for the
-- download body.  No later step rereads the store.
def process_download_resolve (cb : List Char) (st : SessState) : SessState :=
  match splitU cb with
  | _ :: quality :: vid :: _ =>
    match st.current with
    | none => { st with msgs := st.msgs ++ [Msg.stalePrompt] }
    | some v =>
      if v.vid = vid then
        { st with pending := some (quality, v),
                  msgs := st.msgs ++ [Msg.downloading v.title (qualityLabel quality)] }
      else
        { st with msgs := st.msgs ++ [Msg.stalePrompt] }
  | _ => { st with msgs := st.msgs ++ [Msg.invalidFormat] }

-- process_download_request, lines 478 to 568, applied to the captured job.
def process_download_finish (dl : DlFetch) (send : SendOutcome) (maxB : Nat)
    (st : SessState) : SessState :=
  match st.pending with
  | none => st
  | some (q, v) =>
    let r := completeJob dl send q v.title maxB
    { st with pending := none,
              delivered := st.delivered ++ (if r.deliveredOk then [(v.vid, q)] else []),
              msgs := st.msgs ++ r.msgs }

inductive Ev
  | submit (url title : List Char)
  | resolve (cb : List Char)
  | finish (dl : DlFetch) (send : SendOutcome)
deriving DecidableEq

def stepSess (maxB : Nat) (st : SessState) : Ev → SessState
  | Ev.submit url title => process_video_request url title st
  | Ev.resolve cb => process_download_resolve cb st
  | Ev.finish dl send => process_download_finish dl send maxB st

def runSess (maxB : Nat) (st : SessState) : List Ev → SessState
  | [] => st
  | e :: evs => runSess maxB (stepSess maxB st e) evs

-- ---------------------------------------------------------------------------
-- Metadata fetcher (get_video_info, lines 74 to 106).
-- ---------------------------------------------------------------------------

inductive Body
  | jsonBody (payload : Nat)
  | textBody (content : List Char)
deriving DecidableEq

inductive ApiResp
  | exn
  | resp (status : Nat) (body : Body)
deriving DecidableEq

inductive VideoMeta
  | fromJson (payload : Nat)
  | synthesized (title url : List Char) (thumbVid : Option (List Char))
deriving DecidableEq

def ciEq (a b : Char) : Bool := a.toLower = b.toLower

def leadsWithCI : List Char → List Char → Bool
  | [], _ => true
  | _ :: _, [] => false
  | a :: as, b :: bs => ciEq a b && leadsWithCI as bs

-- Remainder of s after the first case-insensitive occurrence of pat.
def afterFirstCI (pat : List Char) : List Char → Option (List Char)
  | [] => if pat.isEmpty then some [] else none
  | c :: rest =>
    if leadsWithCI pat (c :: rest) then some ((c :: rest).drop pat.length)
    else afterFirstCI pat rest

-- Characters of s before the first case-insensitive occurrence of pat.
def upToFirstCI (pat : List Char) : List Char → Option (List Char)
  | [] => if pat.isEmpty then some [] else none
  | c :: rest =>
    if leadsWithCI pat (c :: rest) then some []
    else (upToFirstCI pat rest).map (fun t => c :: t)

-- re.search('<title>(.*?)</title>', content, IGNORECASE | DOTALL) followed
-- by .strip(), defaulting to "Unknown Title".
def extractTitle (content : List Char) : List Char :=
  match afterFirstCI (strOf "<title>") content with
  | none => strOf "Unknown Title"
  | some rest =>
    match upToFirstCI (strOf "</title>") rest with
    | none => strOf "Unknown Title"
    | some t => stripWS t

-- get_video_info: a raised RequestException gives None; a non-200 status
-- gives None; a 200 JSON body is returned as-is; a 200 non-JSON body is
-- turned into a synthesized success record whose title is scraped from the
-- HTML and whose thumbnail uses extract_video_id(url).
def get_video_info (url : List Char) (r : ApiResp) : Option VideoMeta :=
  match r with
  | ApiResp.exn => none
  | ApiResp.resp status body =>
    if status = 200 then
      match body with
      | Body.jsonBody j => some (VideoMeta.fromJson j)
      | Body.textBody content =>
        some (VideoMeta.synthesized (extractTitle content) url (extract_video_id url))
    else none

-- ---------------------------------------------------------------------------
-- Callback dispatcher and settings (settings_command lines 192 to 233,
-- handle_callback_query lines 367 to 436).
-- ---------------------------------------------------------------------------

structure Settings where
  default_quality : Option (List Char)
  auto_download : Option Bool
  send_as_document : Option Bool
deriving DecidableEq

structure UserData where
  settings : Option Settings
  current_video : Option Video
deriving DecidableEq

inductive CbMsg
  | exampleLinks
  | cancelled
  | qualitySet (q : List Char)
  | autoSet (enabled : Bool)
deriving DecidableEq

inductive CbAct
  | answer
  | editText (m : CbMsg)
  | runHelp
  | runSettings
  | runStart
  | beginDownload (cb : List Char)
deriving DecidableEq

-- Python str.replace(pat, "") — remove every (leftmost, non-overlapping)
-- occurrence of pat.  The counter skips the remaining characters of an
-- occurrence that has just been recognized.
def removeAllAux (pat : List Char) : Nat → List Char → List Char
  | _, [] => []
  | k + 1, _ :: rest => removeAllAux pat k rest
  | 0, c :: rest =>
    if startsWithL pat (c :: rest) && !pat.isEmpty then
      removeAllAux pat (pat.length - 1) rest
    else
      c :: removeAllAux pat 0 rest

def removeAll (pat s : List Char) : List Char :=
  removeAllAux pat 0 s

-- The callback_data values offered by the settings menu keyboard
-- (lines 214 to 229), in reading order.
def settings_command_callbacks : List (List Char) :=
  [strOf "set_quality_best", strOf "set_quality_720p",
   strOf "set_quality_480p", strOf "set_quality_360p",
   strOf "toggle_auto", strOf "toggle_document",
   strOf "back_to_main"]

-- handle_callback_query: query.answer() always runs; then the chain of
-- branches in source order; a callback matching no branch falls through
-- and the handler returns having produced nothing further.
def handle_callback_query (cb : List Char) (ud : UserData) : UserData × List CbAct :=
  if cb = strOf "example" then
    (ud, [CbAct.answer, CbAct.editText CbMsg.exampleLinks])
  else if cb = strOf "help" then
    (ud, [CbAct.answer, CbAct.runHelp])
  else if cb = strOf "settings" then
    (ud, [CbAct.answer, CbAct.runSettings])
  else if cb = strOf "back_to_main" then
    (ud, [CbAct.answer, CbAct.runStart])
  else if cb = strOf "cancel_download" then
    (ud, [CbAct.answer, CbAct.editText CbMsg.cancelled])
  else if startsWithL (strOf "download_") cb then
    (ud, [CbAct.answer, CbAct.beginDownload cb])
  else if startsWithL (strOf "set_quality_") cb then
    let q := removeAll (strOf "set_quality_") cb
    let s0 := match ud.settings with
      | none => (⟨none, none, none⟩ : Settings)
      | some s => s
    ({ ud with settings := some { s0 with default_quality := some q } },
     [CbAct.answer, CbAct.editText (CbMsg.qualitySet q)])
  else if cb = strOf "toggle_auto" then
    let s0 := match ud.settings with
      | none => (⟨none, some false, none⟩ : Settings)
      | some s => s
    let cur := match s0.auto_download with
      | none => false
      | some b => b
    ({ ud with settings := some { s0 with auto_download := some (!cur) } },
     [CbAct.answer, CbAct.editText (CbMsg.autoSet (!cur))])
  else
    (ud, [CbAct.answer])

-- ---------------------------------------------------------------------------
-- Helper lemmas: takeWhile, the literal matcher, and the search scan.
-- ---------------------------------------------------------------------------

lemma takeWhile_eq_self_of_all (p : Char → Bool) (v : List Char)
    (h : ∀ c ∈ v, p c = true) : v.takeWhile p = v :=
  List.takeWhile_eq_self_iff.mpr h

lemma dropLit_append (lit rest : List Char) : dropLit lit (lit ++ rest) = some rest := by
  induction lit with
  | nil => rfl
  | cons a as ih => simp [dropLit, ih]

lemma matchCapAt_self (lit v : List Char) (h1 : v ≠ [])
    (h2 : ∀ c ∈ v, capChar c = true) : matchCapAt lit (lit ++ v) = some v := by
  simp only [matchCapAt, dropLit_append, takeWhile_eq_self_of_all capChar v h2]
  cases v with
  | nil => exact absurd rfl h1
  | cons c cs => rfl

lemma matchCapAt_nil (lit : List Char) : matchCapAt lit [] = none := by
  cases lit <;> rfl

lemma matchAltsAt_nil (lits : List (List Char)) : matchAltsAt lits [] = none := by
  induction lits with
  | nil => rfl
  | cons l ls ih => simp [matchAltsAt, matchCapAt_nil, ih]

lemma matchCapAt_head_ne (a : Char) (as : List Char) (c : Char) (s : List Char)
    (h : a ≠ c) : matchCapAt (a :: as) (c :: s) = none := by
  simp [matchCapAt, dropLit, h]

lemma matchAltsAt_head_ne (lits : List (List Char)) (c : Char) (s : List Char)
    (hl : ∀ l ∈ lits, l.head? = some 'y') (hc : c ≠ 'y') :
    matchAltsAt lits (c :: s) = none := by
  induction lits with
  | nil => rfl
  | cons l ls ih =>
    have hhd : l.head? = some 'y' := hl l (by simp)
    cases l with
    | nil => simp at hhd
    | cons a as =>
      have ha : a = 'y' := by simpa using hhd
      subst ha
      rw [matchAltsAt, matchCapAt_head_ne 'y' as c s (Ne.symm hc)]
      exact ih (fun x hx => hl x (by simp [hx]))

lemma reSearch_of_hit (lits : List (List Char)) (s g : List Char)
    (h : matchAltsAt lits s = some g) : reSearch lits s = some g := by
  cases s with
  | nil => rw [matchAltsAt_nil] at h; cases h
  | cons c cs => simp [reSearch, h]

lemma reSearch_cons_none (lits : List (List Char)) (c : Char) (s : List Char)
    (h : matchAltsAt lits (c :: s) = none) :
    reSearch lits (c :: s) = reSearch lits s := by
  simp [reSearch, h]

lemma reSearch_skip_pre (lits : List (List Char)) (pre s : List Char)
    (hl : ∀ l ∈ lits, l.head? = some 'y') (hp : ∀ c ∈ pre, ¬ c = 'y') :
    reSearch lits (pre ++ s) = reSearch lits s := by
  induction pre with
  | nil => rfl
  | cons c cs ih =>
    have hc : ¬ c = 'y' := hp c (by simp)
    rw [List.cons_append, reSearch_cons_none lits c (cs ++ s)
      (matchAltsAt_head_ne lits c (cs ++ s) hl hc)]
    exact ih (fun x hx => hp x (by simp [hx]))

lemma dropLit_none_of_dot (lit : List Char) (w : List Char)
    (hl : '.' ∈ lit) (hw : ∀ c ∈ w, idChar c = true) : dropLit lit w = none := by
  induction lit generalizing w with
  | nil => simp at hl
  | cons a as ih =>
    cases w with
    | nil => rfl
    | cons b bs =>
      by_cases hab : a = b
      · subst hab
        rcases List.mem_cons.mp hl with hdot | hdot
        · have hb : idChar a = true := hw a (by simp)
          rw [← hdot] at hb
          exact absurd hb (by decide)
        · have hstep : dropLit (a :: as) (a :: bs) = dropLit as bs := by
            simp [dropLit]
          rw [hstep]
          exact ih bs hdot (fun x hx => hw x (by simp [hx]))
      · simp [dropLit, hab]

lemma matchCapAt_none_of_dot (lit : List Char) (w : List Char)
    (hl : '.' ∈ lit) (hw : ∀ c ∈ w, idChar c = true) : matchCapAt lit w = none := by
  simp [matchCapAt, dropLit_none_of_dot lit w hl hw]

lemma matchAltsAt_none_of_dot (lits : List (List Char)) (w : List Char)
    (hl : ∀ l ∈ lits, '.' ∈ l) (hw : ∀ c ∈ w, idChar c = true) :
    matchAltsAt lits w = none := by
  induction lits with
  | nil => rfl
  | cons l ls ih =>
    rw [matchAltsAt, matchCapAt_none_of_dot l w (hl l (by simp)) hw]
    exact ih (fun x hx => hl x (by simp [hx]))

lemma reSearch_none_ids (lits : List (List Char)) (w : List Char)
    (hl : ∀ l ∈ lits, '.' ∈ l) (hw : ∀ c ∈ w, idChar c = true) :
    reSearch lits w = none := by
  induction w with
  | nil => rfl
  | cons c cs ih =>
    rw [reSearch_cons_none lits c cs (matchAltsAt_none_of_dot lits (c :: cs) hl hw)]
    exact ih (fun x hx => hw x (by simp [hx]))

lemma cap_of_id (c : Char) (h : idChar c = true) : capChar c = true := by
  have h1 : ¬ c = '&' := fun he => absurd (he ▸ h) (by decide)
  have h2 : ¬ c = '\n' := fun he => absurd (he ▸ h) (by decide)
  have h3 : ¬ c = '?' := fun he => absurd (he ▸ h) (by decide)
  have h4 : ¬ c = '#' := fun he => absurd (he ▸ h) (by decide)
  simp [capChar, h1, h2, h3, h4]

-- ---------------------------------------------------------------------------
-- The four supported URL shapes, against the three patterns in their fixed
-- order (first match wins).
-- ---------------------------------------------------------------------------

lemma reSearch_pat1_watch (v : List Char) (h1 : v ≠ [])
    (h2 : ∀ c ∈ v, idChar c = true) :
    reSearch pat1 (strOf "https://youtube.com/watch?v=" ++ v) = some v := by
  have hsplit : strOf "https://youtube.com/watch?v=" ++ v
      = strOf "https://" ++ (strOf "youtube.com/watch?v=" ++ v) := by
    rw [← List.append_assoc]; rfl
  rw [hsplit, reSearch_skip_pre pat1 _ _ (by decide) (by decide)]
  apply reSearch_of_hit
  have hm : matchCapAt (strOf "youtube.com/watch?v=")
      (strOf "youtube.com/watch?v=" ++ v) = some v :=
    matchCapAt_self _ v h1 (fun c hc => cap_of_id c (h2 c hc))
  simp [pat1, matchAltsAt, hm]

lemma reSearch_pat1_short (v : List Char) (h1 : v ≠ [])
    (h2 : ∀ c ∈ v, idChar c = true) :
    reSearch pat1 (strOf "https://youtu.be/" ++ v) = some v := by
  have hsplit : strOf "https://youtu.be/" ++ v
      = strOf "https://" ++ (strOf "youtu.be/" ++ v) := by
    rw [← List.append_assoc]; rfl
  rw [hsplit, reSearch_skip_pre pat1 _ _ (by decide) (by decide)]
  apply reSearch_of_hit
  have ha1 : matchCapAt (strOf "youtube.com/watch?v=")
      (strOf "youtu.be/" ++ v) = none := rfl
  have ha2 : matchCapAt (strOf "youtu.be/") (strOf "youtu.be/" ++ v) = some v :=
    matchCapAt_self _ v h1 (fun c hc => cap_of_id c (h2 c hc))
  simp [pat1, matchAltsAt, ha1, ha2]

lemma reSearch_pat1_embed (v : List Char) (h1 : v ≠ [])
    (h2 : ∀ c ∈ v, idChar c = true) :
    reSearch pat1 (strOf "https://youtube.com/embed/" ++ v) = some v := by
  have hsplit : strOf "https://youtube.com/embed/" ++ v
      = strOf "https://" ++ (strOf "youtube.com/embed/" ++ v) := by
    rw [← List.append_assoc]; rfl
  rw [hsplit, reSearch_skip_pre pat1 _ _ (by decide) (by decide)]
  apply reSearch_of_hit
  have ha1 : matchCapAt (strOf "youtube.com/watch?v=")
      (strOf "youtube.com/embed/" ++ v) = none := rfl
  have ha2 : matchCapAt (strOf "youtu.be/")
      (strOf "youtube.com/embed/" ++ v) = none := rfl
  have ha3 : matchCapAt (strOf "youtube.com/embed/")
      (strOf "youtube.com/embed/" ++ v) = some v :=
    matchCapAt_self _ v h1 (fun c hc => cap_of_id c (h2 c hc))
  simp [pat1, matchAltsAt, ha1, ha2, ha3]

lemma reSearch_pat1_shorts_none (v : List Char)
    (h2 : ∀ c ∈ v, idChar c = true) :
    reSearch pat1 (strOf "https://youtube.com/shorts/" ++ v) = none := by
  have hsplit : strOf "https://youtube.com/shorts/" ++ v
      = strOf "https://" ++ (strOf "youtube.com/shorts/" ++ v) := by
    rw [← List.append_assoc]; rfl
  rw [hsplit, reSearch_skip_pre pat1 _ _ (by decide) (by decide)]
  have ha1 : matchCapAt (strOf "youtube.com/watch?v=")
      (strOf "youtube.com/shorts/" ++ v) = none := rfl
  have ha2 : matchCapAt (strOf "youtu.be/")
      (strOf "youtube.com/shorts/" ++ v) = none := rfl
  have ha3 : matchCapAt (strOf "youtube.com/embed/")
      (strOf "youtube.com/shorts/" ++ v) = none := rfl
  have hno : matchAltsAt pat1 (strOf "youtube.com/shorts/" ++ v) = none := by
    simp [pat1, matchAltsAt, ha1, ha2, ha3]
  have hcons : strOf "youtube.com/shorts/" ++ v
      = 'y' :: (strOf "outube.com/shorts/" ++ v) := rfl
  rw [hcons] at hno
  rw [hcons, reSearch_cons_none pat1 'y' (strOf "outube.com/shorts/" ++ v) hno,
    reSearch_skip_pre pat1 (strOf "outube.com/shorts/") v (by decide) (by decide)]
  exact reSearch_none_ids pat1 v (by decide) h2

lemma reSearch_pat2_shorts (v : List Char) (h1 : v ≠ [])
    (h2 : ∀ c ∈ v, idChar c = true) :
    reSearch pat2 (strOf "https://youtube.com/shorts/" ++ v) = some v := by
  have hsplit : strOf "https://youtube.com/shorts/" ++ v
      = strOf "https://" ++ (strOf "youtube.com/shorts/" ++ v) := by
    rw [← List.append_assoc]; rfl
  rw [hsplit, reSearch_skip_pre pat2 _ _ (by decide) (by decide)]
  apply reSearch_of_hit
  have hm : matchCapAt (strOf "youtube.com/shorts/")
      (strOf "youtube.com/shorts/" ++ v) = some v :=
    matchCapAt_self _ v h1 (fun c hc => cap_of_id c (h2 c hc))
  simp [pat2, matchAltsAt, hm]

lemma extract_watch_eq (v : List Char) (h1 : v ≠ [])
    (h2 : ∀ c ∈ v, idChar c = true) :
    extract_video_id (strOf "https://youtube.com/watch?v=" ++ v) = some v := by
  simp [extract_video_id, reSearch_pat1_watch v h1 h2]

lemma extract_short_eq (v : List Char) (h1 : v ≠ [])
    (h2 : ∀ c ∈ v, idChar c = true) :
    extract_video_id (strOf "https://youtu.be/" ++ v) = some v := by
  simp [extract_video_id, reSearch_pat1_short v h1 h2]

lemma extract_embed_eq (v : List Char) (h1 : v ≠ [])
    (h2 : ∀ c ∈ v, idChar c = true) :
    extract_video_id (strOf "https://youtube.com/embed/" ++ v) = some v := by
  simp [extract_video_id, reSearch_pat1_embed v h1 h2]

lemma extract_shorts_eq (v : List Char) (h1 : v ≠ [])
    (h2 : ∀ c ∈ v, idChar c = true) :
    extract_video_id (strOf "https://youtube.com/shorts/" ++ v) = some v := by
  simp [extract_video_id, reSearch_pat1_shorts_none v h2,
    reSearch_pat2_shorts v h1 h2]

-- ---------------------------------------------------------------------------
-- Token split lemmas and the behaviour of the three workflow steps.
-- ---------------------------------------------------------------------------

lemma splitU_no_sep (w : List Char) (hw : '_' ∉ w) : splitU w = [w] := by
  induction w with
  | nil => rfl
  | cons c cs ih =>
    have hc : ¬ c = '_' := fun h => hw (by simp [h])
    have hcs : '_' ∉ cs := fun h => hw (by simp [h])
    simp [splitU, hc, ih hcs]

lemma splitU_append_sep (w rest : List Char) (hw : '_' ∉ w) :
    splitU (w ++ '_' :: rest) = w :: splitU rest := by
  induction w with
  | nil => simp [splitU]
  | cons c cs ih =>
    have hc : ¬ c = '_' := fun h => hw (by simp [h])
    have hcs : '_' ∉ cs := fun h => hw (by simp [h])
    simp [splitU, hc, ih hcs]

lemma splitU_dlToken (q vid : List Char) (hq : '_' ∉ q) (hv : '_' ∉ vid) :
    splitU (dlToken q vid) = [strOf "download", q, vid] := by
  have h1 : strOf "download_" = strOf "download" ++ ['_'] := rfl
  have h2 : strOf "_" = ['_'] := rfl
  have e : dlToken q vid = strOf "download" ++ ('_' :: (q ++ '_' :: vid)) := by
    rw [dlToken, h1, h2]
    simp [List.append_assoc]
  rw [e, splitU_append_sep _ _ (by decide), splitU_append_sep _ _ hq,
    splitU_no_sep _ hv]

-- process_video_request on a link the classifier accepts.
lemma submit_stores (url title vid : List Char) (st : SessState)
    (h1 : is_valid_youtube_url url = true) (h2 : extract_video_id url = some vid) :
    process_video_request url title st
      = { st with current := some ⟨url, title, vid⟩,
                  msgs := st.msgs ++ [Msg.videoFound title vid] } := by
  simp [process_video_request, h1, h2]

-- The staleness gate: a token whose embedded identifier does not match the
-- stored context (including the no-context case) produces the resubmit
-- prompt and changes nothing else.
lemma resolve_stale (st : SessState) (q vid : List Char)
    (hq : '_' ∉ q) (hv : '_' ∉ vid)
    (h : Option.map Video.vid st.current ≠ some vid) :
    process_download_resolve (dlToken q vid) st
      = { st with msgs := st.msgs ++ [Msg.stalePrompt] } := by
  unfold process_download_resolve
  rw [splitU_dlToken q vid hq hv]
  cases hc : st.current with
  | none => simp
  | some v =>
    have hne : ¬ (v.vid = vid) := fun he => h (by rw [hc]; simp [he])
    simp [hne]

-- The success path of the check: matching context captures the job.
lemma resolve_hit (st : SessState) (q : List Char) (v : Video)
    (hq : '_' ∉ q) (hv : '_' ∉ v.vid) (hc : st.current = some v) :
    process_download_resolve (dlToken q v.vid) st
      = { st with pending := some (q, v),
                  msgs := st.msgs ++ [Msg.downloading v.title (qualityLabel q)] } := by
  unfold process_download_resolve
  rw [splitU_dlToken q v.vid hq hv, hc]
  simp

lemma finish_no_pending (dl : DlFetch) (send : SendOutcome) (maxB : Nat)
    (st : SessState) (h : st.pending = none) :
    process_download_finish dl send maxB st = st := by
  simp [process_download_finish, h]

lemma finish_delivers (fs maxB : Nat) (q : List Char) (v : Video) (st : SessState)
    (hp : st.pending = some (q, v)) (hfs : ¬ fs > maxB) :
    process_download_finish (DlFetch.resp 200 fs) SendOutcome.ok maxB st
      = { st with pending := none,
                  delivered := st.delivered ++ [(v.vid, q)],
                  msgs := st.msgs ++ (progressMsgs
                    ++ [Msg.successCaption v.title (qualityLabel q) fs,
                        Msg.successNote]) } := by
  simp [process_download_finish, hp, completeJob, hfs]

-- ---------------------------------------------------------------------------
-- Temp-path structure lemmas.
-- ---------------------------------------------------------------------------

lemma underscore_boundary (u : List Char) (x y : List Char)
    (hu : '_' ∉ u) :
    ∀ u' : List Char, '_' ∉ u' →
      u ++ '_' :: x = u' ++ '_' :: y → u = u' ∧ x = y := by
  induction u with
  | nil =>
    intro u' hu' h
    cases u' with
    | nil =>
      rw [List.nil_append, List.nil_append] at h
      injection h with _ h2
      exact ⟨rfl, h2⟩
    | cons d ds =>
      rw [List.nil_append, List.cons_append] at h
      injection h with h1 _
      exact absurd (show ('_' ∈ d :: ds) by rw [← h1]; exact List.mem_cons_self _ _) hu'
  | cons c cs ih =>
    intro u' hu' h
    cases u' with
    | nil =>
      rw [List.cons_append, List.nil_append] at h
      injection h with h1 _
      exact absurd (show ('_' ∈ c :: cs) by rw [h1]; exact List.mem_cons_self _ _) hu
    | cons d ds =>
      rw [List.cons_append, List.cons_append] at h
      injection h with h1 h2
      have hcs : '_' ∉ cs := fun hm => hu (List.mem_cons_of_mem _ hm)
      have hds : '_' ∉ ds := fun hm => hu' (List.mem_cons_of_mem _ hm)
      obtain ⟨e1, e2⟩ := ih hcs ds hds h2
      exact ⟨by rw [h1, e1], e2⟩

lemma tempPath_eq (u v : List Char) :
    tempPath u v = strOf "temp_" ++ (u ++ '_' :: (v ++ strOf ".mp4")) := by
  have h2 : strOf "_" = ['_'] := rfl
  rw [tempPath, h2]
  simp [List.append_assoc]

-- The stale gate stated over the parsed fields of an arbitrary token: the
-- code compares parts[2] of the underscore split (the embedded identifier
-- truncated at its first underscore) against the stored context identifier.
lemma resolve_stale_parsed (st : SessState) (cb p0 q vid : List Char)
    (hp : parseCbFields cb = some (p0, q, vid))
    (h : Option.map Video.vid st.current ≠ some vid) :
    process_download_resolve cb st
      = { st with msgs := st.msgs ++ [Msg.stalePrompt] } := by
  unfold process_download_resolve
  unfold parseCbFields at hp
  cases hsp : splitU cb with
  | nil => rw [hsp] at hp; exact absurd hp (by simp)
  | cons a rest =>
    cases rest with
    | nil => rw [hsp] at hp; exact absurd hp (by simp)
    | cons b rest2 =>
      cases rest2 with
      | nil => rw [hsp] at hp; exact absurd hp (by simp)
      | cons c rest3 =>
        rw [hsp] at hp
        simp only [Option.some.injEq, Prod.mk.injEq] at hp
        obtain ⟨hpa, hpb, hpc⟩ := hp
        subst hpc
        cases hc : st.current with
        | none => simp
        | some v =>
          have hne : ¬ (v.vid = c) := fun he => h (by rw [hc]; simp [he])
          simp [hne]

-- ---------------------------------------------------------------------------
-- Claim theorems.
-- ---------------------------------------------------------------------------

/-- C1, counterexample: a new valid link (video bbb) is submitted after the
in-flight job for video aaa has passed its staleness check but before it
completes; the claim says the job's eventual artifact is never delivered,
yet the run delivers the aaa artifact while the session context already
holds bbb — the code has no supersession of in-flight jobs. -/
theorem c1_counterexample :
    (runSess Config.MAX_FILE_SIZE initSess
      [Ev.submit (strOf "https://youtu.be/aaa") (strOf "First"),
       Ev.resolve (dlToken (strOf "720p") (strOf "aaa")),
       Ev.submit (strOf "https://youtu.be/bbb") (strOf "Second"),
       Ev.finish (DlFetch.resp 200 100) SendOutcome.ok]).delivered
      = [(strOf "aaa", strOf "720p")]
    ∧ (runSess Config.MAX_FILE_SIZE initSess
      [Ev.submit (strOf "https://youtu.be/aaa") (strOf "First"),
       Ev.resolve (dlToken (strOf "720p") (strOf "aaa")),
       Ev.submit (strOf "https://youtu.be/bbb") (strOf "Second"),
       Ev.finish (DlFetch.resp 200 100) SendOutcome.ok]).current
      = some ⟨strOf "https://youtu.be/bbb", strOf "Second", strOf "bbb"⟩
    ∧ strOf "bbb" ≠ strOf "aaa" := by
  decide

/-- C1, amended: the context switch is atomic and guards only the
resolution step — a selection resolved after the new submission yields the
stale prompt and nothing is ever delivered for it; but a job whose
staleness check already passed is not superseded: its artifact is still
delivered even though a new link arrived before completion, and only the
session context reflects the new link. -/
theorem c1_supersession_behavior
    (ua ub ta tb va vb q : List Char) (fs : Nat)
    (hva : is_valid_youtube_url ua = true) (hea : extract_video_id ua = some va)
    (hvb : is_valid_youtube_url ub = true) (heb : extract_video_id ub = some vb)
    (hne : vb ≠ va) (hq : '_' ∉ q) (hv : '_' ∉ va)
    (hfs : ¬ fs > Config.MAX_FILE_SIZE) :
    runSess Config.MAX_FILE_SIZE initSess
        [Ev.submit ua ta, Ev.submit ub tb, Ev.resolve (dlToken q va),
         Ev.finish (DlFetch.resp 200 fs) SendOutcome.ok]
      = { current := some ⟨ub, tb, vb⟩, pending := none, delivered := [],
          msgs := [Msg.videoFound ta va, Msg.videoFound tb vb, Msg.stalePrompt] }
    ∧ runSess Config.MAX_FILE_SIZE initSess
        [Ev.submit ua ta, Ev.resolve (dlToken q va), Ev.submit ub tb,
         Ev.finish (DlFetch.resp 200 fs) SendOutcome.ok]
      = { current := some ⟨ub, tb, vb⟩, pending := none, delivered := [(va, q)],
          msgs := [Msg.videoFound ta va, Msg.downloading ta (qualityLabel q),
                   Msg.videoFound tb vb] ++ progressMsgs
                  ++ [Msg.successCaption ta (qualityLabel q) fs, Msg.successNote] } := by
  constructor
  · show process_download_finish (DlFetch.resp 200 fs) SendOutcome.ok Config.MAX_FILE_SIZE
        (process_download_resolve (dlToken q va)
          (process_video_request ub tb (process_video_request ua ta initSess))) = _
    rw [submit_stores ua ta va initSess hva hea]
    rw [submit_stores ub tb vb _ hvb heb]
    rw [resolve_stale _ q va hq hv (by simp [hne])]
    rw [finish_no_pending _ _ _ _ rfl]
    rfl
  · show process_download_finish (DlFetch.resp 200 fs) SendOutcome.ok Config.MAX_FILE_SIZE
        (process_video_request ub tb
          (process_download_resolve (dlToken q va)
            (process_video_request ua ta initSess))) = _
    rw [submit_stores ua ta va initSess hva hea]
    rw [resolve_hit _ q ⟨ua, ta, va⟩ hq hv rfl]
    rw [submit_stores ub tb vb _ hvb heb]
    rw [finish_delivers fs Config.MAX_FILE_SIZE q ⟨ua, ta, va⟩ _ rfl hfs]
    rfl

/-- C1 witness: the amended statement instantiated at concrete links
(videos aaa and bbb, quality 720p, a 100-byte artifact). -/
theorem c1_supersession_behavior_witness :
    runSess Config.MAX_FILE_SIZE initSess
        [Ev.submit (strOf "https://youtu.be/aaa") (strOf "First"),
         Ev.submit (strOf "https://youtu.be/bbb") (strOf "Second"),
         Ev.resolve (dlToken (strOf "720p") (strOf "aaa")),
         Ev.finish (DlFetch.resp 200 100) SendOutcome.ok]
      = { current := some ⟨strOf "https://youtu.be/bbb", strOf "Second", strOf "bbb"⟩,
          pending := none, delivered := [],
          msgs := [Msg.videoFound (strOf "First") (strOf "aaa"),
                   Msg.videoFound (strOf "Second") (strOf "bbb"), Msg.stalePrompt] }
    ∧ runSess Config.MAX_FILE_SIZE initSess
        [Ev.submit (strOf "https://youtu.be/aaa") (strOf "First"),
         Ev.resolve (dlToken (strOf "720p") (strOf "aaa")),
         Ev.submit (strOf "https://youtu.be/bbb") (strOf "Second"),
         Ev.finish (DlFetch.resp 200 100) SendOutcome.ok]
      = { current := some ⟨strOf "https://youtu.be/bbb", strOf "Second", strOf "bbb"⟩,
          pending := none, delivered := [(strOf "aaa", strOf "720p")],
          msgs := [Msg.videoFound (strOf "First") (strOf "aaa"),
                   Msg.downloading (strOf "First") (qualityLabel (strOf "720p")),
                   Msg.videoFound (strOf "Second") (strOf "bbb")] ++ progressMsgs
                  ++ [Msg.successCaption (strOf "First") (qualityLabel (strOf "720p")) 100,
                      Msg.successNote] } :=
  c1_supersession_behavior (strOf "https://youtu.be/aaa") (strOf "https://youtu.be/bbb")
    (strOf "First") (strOf "Second") (strOf "aaa") (strOf "bbb") (strOf "720p") 100
    (by decide) (by decide) (by decide) (by decide) (by decide) (by decide) (by decide)
    (by decide)

/-- C2, counterexample: the token download_720p_a_b embeds the identifier
a_b — producible by the classifier, as the first conjunct shows — which
differs from the session's current context identifier a; yet resolution
does not yield the stale prompt: split on underscore truncates the
embedded identifier to parts[2] = a, the line-453 check passes, and a
download is attempted (the job is captured and the downloading banner is
edited), refuting the never-a-download-attempt claim. -/
theorem c2_mismatch_counterexample :
    extract_video_id (strOf "https://youtu.be/a_b") = some (strOf "a_b")
    ∧ strOf "a_b" ≠ strOf "a"
    ∧ process_download_resolve (dlToken (strOf "720p") (strOf "a_b"))
        { current := some ⟨strOf "https://youtu.be/a", strOf "T", strOf "a"⟩,
          pending := none, delivered := [], msgs := [] }
      = { current := some ⟨strOf "https://youtu.be/a", strOf "T", strOf "a"⟩,
          pending := some (strOf "720p",
            ⟨strOf "https://youtu.be/a", strOf "T", strOf "a"⟩),
          delivered := [],
          msgs := [Msg.downloading (strOf "T") (qualityLabel (strOf "720p"))] } := by
  decide

/-- C2, amended: the anti-staleness gate compares the parsed identifier —
parts[2] of the underscore split, i.e. the embedded identifier truncated
at its first underscore — against the current context identifier.  For
every token whose parsed identifier differs from the stored identifier
(including when no context is stored), resolution yields the resubmit
prompt and changes nothing else, so no download is attempted, for every
quality key, valid or not.  A token whose full embedded identifier
mismatches can therefore still start a download when its truncation
equals the context identifier. -/
theorem c2_stale_gate_parsed (st : SessState) (cb p0 q vid : List Char)
    (hp : parseCbFields cb = some (p0, q, vid))
    (h : Option.map Video.vid st.current ≠ some vid) :
    process_download_resolve cb st
      = { st with msgs := st.msgs ++ [Msg.stalePrompt] } :=
  resolve_stale_parsed st cb p0 q vid hp h

/-- C2 witness: an invalid quality key (999x) and a mismatched parsed
identifier bbb against a session holding video aaa. -/
theorem c2_stale_gate_parsed_witness :
    process_download_resolve (dlToken (strOf "999x") (strOf "bbb"))
        { current := some ⟨strOf "https://youtu.be/aaa", strOf "T", strOf "aaa"⟩,
          pending := none, delivered := [], msgs := [] }
      = { current := some ⟨strOf "https://youtu.be/aaa", strOf "T", strOf "aaa"⟩,
          pending := none, delivered := [], msgs := [Msg.stalePrompt] } :=
  c2_stale_gate_parsed _ (dlToken (strOf "999x") (strOf "bbb"))
    (strOf "download") (strOf "999x") (strOf "bbb") (by decide) (by decide)

/-- C3, counterexample: for an oversized artifact the user-facing report
carries the actual size and the configured maximum, but the overage
actualBytes - maxBytes (here 500000000) is not among the reported
quantities, refuting the clause that the report states the overage. -/
theorem c3_overage_counterexample :
    (completeJob (DlFetch.resp 200 2500000000) SendOutcome.ok (strOf "720p")
        (strOf "T") Config.MAX_FILE_SIZE).msgs
      = progressMsgs ++ [Msg.tooLarge 2500000000 2000000000]
    ∧ ¬ ((2500000000 - 2000000000)
          ∈ reportedNumbers (Msg.tooLarge 2500000000 2000000000)) := by
  decide

/-- C3, amended: an artifact whose measured size exceeds the configured
maximum is always deleted and never delivered, and the too-large report
states the actual size and the maximum (from which the overage
actualBytes - maxBytes is derivable) rather than the overage itself. -/
theorem c3_toolarge_cleanup (fs maxB : Nat) (q t : List Char)
    (send : SendOutcome) (h : fs > maxB) :
    completeJob (DlFetch.resp 200 fs) send q t maxB
      = ⟨true, true, none, false, progressMsgs ++ [Msg.tooLarge fs maxB]⟩
    ∧ reportedNumbers (Msg.tooLarge fs maxB) = [fs, maxB] := by
  constructor
  · simp [completeJob, h]
  · rfl

/-- C3 witness: the spec scenario, a 2,500,000,000-byte artifact against the
2,000,000,000-byte maximum. -/
theorem c3_toolarge_cleanup_witness :
    completeJob (DlFetch.resp 200 2500000000) SendOutcome.ok (strOf "720p")
        (strOf "T") Config.MAX_FILE_SIZE
      = ⟨true, true, none, false,
         progressMsgs ++ [Msg.tooLarge 2500000000 2000000000]⟩
    ∧ reportedNumbers (Msg.tooLarge 2500000000 2000000000)
      = [2500000000, 2000000000] :=
  c3_toolarge_cleanup 2500000000 Config.MAX_FILE_SIZE (strOf "720p") (strOf "T")
    SendOutcome.ok (by decide)

/-- C4, counterexample: when the transport throws during send_video, the
except handler only edits a message; the temp file was created but is not
removed, refuting cleanup on every exit path of the delivery step. -/
theorem c4_leak_counterexample :
    (completeJob (DlFetch.resp 200 1000000) SendOutcome.transportError
        (strOf "720p") (strOf "T") Config.MAX_FILE_SIZE).tempCreated = true
    ∧ (completeJob (DlFetch.resp 200 1000000) SendOutcome.transportError
        (strOf "720p") (strOf "T") Config.MAX_FILE_SIZE).tempRemoved = false := by
  decide

/-- C4, amended: the temp file is removed on the successful-send path, but a
transport exception or a cancellation during send leaves the created temp
file on disk — cleanup is not guaranteed on every exit path. -/
theorem c4_cleanup_paths (fs maxB : Nat) (q t : List Char) (h : ¬ fs > maxB) :
    (completeJob (DlFetch.resp 200 fs) SendOutcome.ok q t maxB).tempRemoved = true
    ∧ ((completeJob (DlFetch.resp 200 fs) SendOutcome.transportError q t maxB).tempCreated = true
        ∧ (completeJob (DlFetch.resp 200 fs) SendOutcome.transportError q t maxB).tempRemoved = false)
    ∧ ((completeJob (DlFetch.resp 200 fs) SendOutcome.cancelled q t maxB).tempCreated = true
        ∧ (completeJob (DlFetch.resp 200 fs) SendOutcome.cancelled q t maxB).tempRemoved = false) := by
  refine ⟨?_, ⟨?_, ?_⟩, ⟨?_, ?_⟩⟩ <;> simp [completeJob, h]

/-- C4 witness: a 100-byte artifact within the configured maximum. -/
theorem c4_cleanup_paths_witness :
    (completeJob (DlFetch.resp 200 100) SendOutcome.ok (strOf "720p") (strOf "T")
        Config.MAX_FILE_SIZE).tempRemoved = true
    ∧ ((completeJob (DlFetch.resp 200 100) SendOutcome.transportError (strOf "720p")
          (strOf "T") Config.MAX_FILE_SIZE).tempCreated = true
        ∧ (completeJob (DlFetch.resp 200 100) SendOutcome.transportError (strOf "720p")
            (strOf "T") Config.MAX_FILE_SIZE).tempRemoved = false)
    ∧ ((completeJob (DlFetch.resp 200 100) SendOutcome.cancelled (strOf "720p")
          (strOf "T") Config.MAX_FILE_SIZE).tempCreated = true
        ∧ (completeJob (DlFetch.resp 200 100) SendOutcome.cancelled (strOf "720p")
            (strOf "T") Config.MAX_FILE_SIZE).tempRemoved = false) :=
  c4_cleanup_paths 100 Config.MAX_FILE_SIZE (strOf "720p") (strOf "T") (by decide)

/-- C5, counterexample: the audio-only selection is not delivered as an
audio attachment — the code calls send_video for it, with the streaming
hint and an .mp4 filename, refuting the audio branch of the claim. -/
theorem c5_audio_counterexample :
    isAudioSend (completeJob (DlFetch.resp 200 1000000) SendOutcome.ok
        (strOf "audio") (strOf "T") Config.MAX_FILE_SIZE).send = false
    ∧ (completeJob (DlFetch.resp 200 1000000) SendOutcome.ok (strOf "audio")
        (strOf "T") Config.MAX_FILE_SIZE).send
      = some (SendAction.sendVideo (mkFilename (strOf "T") (strOf "audio")) true) := by
  decide

/-- C5, amended: every quality choice, the audio-only option included, is
delivered through the video-attachment call with the streaming-friendly
hint enabled and an .mp4 filename; no audio attachment is ever produced. -/
theorem c5_always_video (fs maxB : Nat) (q t : List Char) (h : ¬ fs > maxB) :
    (completeJob (DlFetch.resp 200 fs) SendOutcome.ok q t maxB).send
      = some (SendAction.sendVideo (mkFilename t q) true)
    ∧ isAudioSend (completeJob (DlFetch.resp 200 fs) SendOutcome.ok q t maxB).send
      = false := by
  constructor <;> simp [completeJob, h, isAudioSend]

/-- C5 witness: the audio-only quality at a size within the maximum. -/
theorem c5_always_video_witness :
    (completeJob (DlFetch.resp 200 1000000) SendOutcome.ok (strOf "audio")
        (strOf "T") Config.MAX_FILE_SIZE).send
      = some (SendAction.sendVideo (mkFilename (strOf "T") (strOf "audio")) true)
    ∧ isAudioSend (completeJob (DlFetch.resp 200 1000000) SendOutcome.ok
        (strOf "audio") (strOf "T") Config.MAX_FILE_SIZE).send = false :=
  c5_always_video 1000000 Config.MAX_FILE_SIZE (strOf "audio") (strOf "T") (by decide)

/-- C6: round-trip failure the claim rules out.  The classifier produces the
identifier a_b (underscores are legal in YouTube identifiers), the encoder
emits download_720p_a_b, but the split-on-underscore parse recovers only
the prefix a — so the bot rejects its own freshly offered button. -/
theorem c6_underscore_roundtrip_bug :
    extract_video_id (strOf "https://youtu.be/a_b") = some (strOf "a_b")
    ∧ dlToken (strOf "720p") (strOf "a_b") = strOf "download_720p_a_b"
    ∧ parseCbFields (strOf "download_720p_a_b")
        = some (strOf "download", strOf "720p", strOf "a")
    ∧ parseCbFields (dlToken (strOf "720p") (strOf "a_b"))
        ≠ some (strOf "download", strOf "720p", strOf "a_b") := by
  decide

/-- C7, counterexample: a 200 response whose body is not JSON is not
classified as FetchFailed — the code synthesizes a success record with the
title scraped from the HTML, refuting the uniform-failure claim. -/
theorem c7_synthesis_counterexample :
    get_video_info (strOf "https://youtu.be/abc")
        (ApiResp.resp 200 (Body.textBody (strOf "<title> Hi </title>")))
      = some (VideoMeta.synthesized (strOf "Hi") (strOf "https://youtu.be/abc")
          (some (strOf "abc")))
    ∧ get_video_info (strOf "https://youtu.be/abc")
        (ApiResp.resp 200 (Body.textBody (strOf "<title> Hi </title>"))) ≠ none := by
  decide

/-- C7, amended: a raised request error or timeout and every non-200 status
yield FetchFailed (None); a 200 JSON body is returned as-is; but a 200
non-JSON body yields a synthesized success record (title scraped from the
HTML, default Unknown Title) rather than FetchFailed. -/
theorem c7_fetch_classification (u : List Char) :
    get_video_info u ApiResp.exn = none
    ∧ (∀ s b, s ≠ 200 → get_video_info u (ApiResp.resp s b) = none)
    ∧ (∀ j, get_video_info u (ApiResp.resp 200 (Body.jsonBody j))
        = some (VideoMeta.fromJson j))
    ∧ (∀ t, get_video_info u (ApiResp.resp 200 (Body.textBody t))
        = some (VideoMeta.synthesized (extractTitle t) u (extract_video_id u))) := by
  refine ⟨rfl, ?_, ?_, ?_⟩
  · intro s b hs
    simp [get_video_info, hs]
  · intro j
    rfl
  · intro t
    rfl

/-- C7 witness: a 404 status is classified as FetchFailed. -/
theorem c7_fetch_classification_witness :
    get_video_info (strOf "https://youtu.be/abc")
        (ApiResp.resp 404 (Body.jsonBody 0)) = none :=
  (c7_fetch_classification (strOf "https://youtu.be/abc")).2.1 404 (Body.jsonBody 0)
    (by decide)

/-- C8: for every nonempty identifier over the canonical id alphabet, the
four supported URL shapes (watch, short, embed, shorts) all make
extract_video_id return exactly that identifier, the patterns being tried
in their fixed order with the first match winning. -/
theorem c8_url_shapes (v : List Char) (h1 : v ≠ [])
    (h2 : ∀ c ∈ v, idChar c = true) :
    extract_video_id (strOf "https://youtube.com/watch?v=" ++ v) = some v
    ∧ extract_video_id (strOf "https://youtu.be/" ++ v) = some v
    ∧ extract_video_id (strOf "https://youtube.com/embed/" ++ v) = some v
    ∧ extract_video_id (strOf "https://youtube.com/shorts/" ++ v) = some v :=
  ⟨extract_watch_eq v h1 h2, extract_short_eq v h1 h2,
   extract_embed_eq v h1 h2, extract_shorts_eq v h1 h2⟩

/-- C8 witness: the identifier dQw4w9WgXcQ in all four URL shapes. -/
theorem c8_url_shapes_witness :
    extract_video_id (strOf "https://youtube.com/watch?v=" ++ strOf "dQw4w9WgXcQ")
      = some (strOf "dQw4w9WgXcQ")
    ∧ extract_video_id (strOf "https://youtu.be/" ++ strOf "dQw4w9WgXcQ")
      = some (strOf "dQw4w9WgXcQ")
    ∧ extract_video_id (strOf "https://youtube.com/embed/" ++ strOf "dQw4w9WgXcQ")
      = some (strOf "dQw4w9WgXcQ")
    ∧ extract_video_id (strOf "https://youtube.com/shorts/" ++ strOf "dQw4w9WgXcQ")
      = some (strOf "dQw4w9WgXcQ") :=
  c8_url_shapes (strOf "dQw4w9WgXcQ") (by decide) (by decide)

/-- C9, counterexample: two distinct jobs of the same identity for the same
video at different qualities share one temp path, because the path omits
the quality — so cleanup of one can delete the other's artifact. -/
theorem c9_shared_path_counterexample :
    (⟨strOf "7", strOf "abc", strOf "720p"⟩ : DJob)
      ≠ (⟨strOf "7", strOf "abc", strOf "360p"⟩ : DJob)
    ∧ jobTempPath ⟨strOf "7", strOf "abc", strOf "720p"⟩
      = jobTempPath ⟨strOf "7", strOf "abc", strOf "360p"⟩ := by
  decide

/-- C9, amended: the temp path depends only on the identity and the video
identifier — jobs differing only in quality share one path; for identities
rendered without underscores the map from (identity, video id) to path is
injective, so only the same-video-different-quality collision exists. -/
theorem c9_temp_path_structure (u u' v v' q q' : List Char)
    (hu : '_' ∉ u) (hu' : '_' ∉ u') :
    jobTempPath ⟨u, v, q⟩ = jobTempPath ⟨u, v, q'⟩
    ∧ (jobTempPath ⟨u, v, q⟩ = jobTempPath ⟨u', v', q'⟩ → u = u' ∧ v = v') := by
  constructor
  · rfl
  · intro h
    rw [jobTempPath, jobTempPath, tempPath_eq, tempPath_eq] at h
    have h2 := List.append_cancel_left h
    obtain ⟨e1, e2⟩ := underscore_boundary u _ _ hu u' hu' h2
    exact ⟨e1, List.append_cancel_right e2⟩

/-- C9 witness: identity 7, video abc, at qualities 720p and 360p. -/
theorem c9_temp_path_structure_witness :
    jobTempPath ⟨strOf "7", strOf "abc", strOf "720p"⟩
      = jobTempPath ⟨strOf "7", strOf "abc", strOf "360p"⟩
    ∧ (jobTempPath ⟨strOf "7", strOf "abc", strOf "720p"⟩
        = jobTempPath ⟨strOf "9", strOf "xyz", strOf "360p"⟩
        → strOf "7" = strOf "9" ∧ strOf "abc" = strOf "xyz") :=
  c9_temp_path_structure (strOf "7") (strOf "9") (strOf "abc") (strOf "xyz")
    (strOf "720p") (strOf "360p") (by decide) (by decide)

/-- C10: the settings menu offers the As Document button (callback
toggle_document), but the callback dispatcher has no branch for it — the
handler only acknowledges the press and returns, leaving the user data
(settings included) unchanged and producing no reply or message edit. -/
theorem c10_toggle_document_ignored :
    (strOf "toggle_document") ∈ settings_command_callbacks
    ∧ ∀ ud : UserData,
        handle_callback_query (strOf "toggle_document") ud = (ud, [CbAct.answer]) :=
  ⟨by decide, fun _ => rfl⟩
